import Mathlib

/-!
Verification development for the flowerbelle point-of-sale backend.

The definitions below are a shallow embedding of the transaction / cart /
checkout slice of the repository (backend/pos/models.py,
backend/pos/serializers.py, backend/pos/views.py).  Monetary amounts are
two-decimal Decimals in the source; they are embedded as integers counting
centavos, which makes every arithmetic operation of the source exact.
Database rows become Lean structures, related rows are carried as lists,
and the single-request database transaction (`transaction.atomic`) is
embedded as rollback-on-error: an operation either returns the fully
updated state or the unchanged input state together with an error.
Transaction-number strings are embedded as lists of characters, compared
by code point exactly as the database orders them.
-/

namespace Flowerbelle

/-! ## Character-list strings and the transaction-number generator -/

/-- Code-point lexicographic strict order on character lists, the order the
database uses for `order_by('-transaction_number')`. -/
def lexLt : List Char → List Char → Bool
  | [], [] => false
  | [], _ :: _ => true
  | _ :: _, [] => false
  | a :: as, b :: bs =>
    if a.toNat < b.toNat then true
    else if b.toNat < a.toNat then false
    else lexLt as bs

/-- `order_by('-transaction_number').first()`: the lexicographically greatest
element of the list, if any. -/
def maxStr (l : List (List Char)) : Option (List Char) :=
  match l with
  | [] => none
  | x :: xs => some (xs.foldl (fun acc s => if lexLt acc s then s else acc) x)

/-- Helper for `lastAfterDash`: scan the string, restarting the accumulator
at every dash. -/
def lastAfterDashAux (acc : List Char) : List Char → List Char
  | [] => acc.reverse
  | c :: rest =>
    if c = '-' then lastAfterDashAux [] rest
    else lastAfterDashAux (c :: acc) rest

/-- Python's `s.split('-')[-1]`: the suffix after the last dash (the whole
string when it has no dash). -/
def lastAfterDash (s : List Char) : List Char :=
  lastAfterDashAux [] s

/-- Python's `int(...)` on a string of decimal digits. -/
def parseNatChars (s : List Char) : Nat :=
  s.foldl (fun acc c => 10 * acc + (c.toNat - 48)) 0

/-- The character of a decimal digit. -/
def digChar (d : Nat) : Char :=
  Char.ofNat (48 + d)

/-- Python's `f'{n:04d}'`: the decimal representation of `n` left-padded
with zeros to at least four characters. -/
def pad4chars (n : Nat) : List Char :=
  if n < 10000 then
    [digChar (n / 1000), digChar (n / 100 % 10), digChar (n / 10 % 10), digChar (n % 10)]
  else
    Nat.toDigits 10 n

/-- The day prefix `f'TXN-{date_str}'` used both to filter and to build
transaction numbers. -/
def txnPre (d : List Char) : List Char :=
  ['T', 'X', 'N', '-'] ++ d

/-- The transaction number `f'TXN-{date_str}-{n:04d}'`. -/
def mkTxnNumber (d : List Char) (n : Nat) : List Char :=
  txnPre d ++ '-' :: pad4chars n

/-- `SalesTransaction.save` (models.py): filter existing numbers by today's
prefix, take the one greatest in string order, parse the digits after its
last dash, add one, and render zero-padded to four digits; start at 1 when
no number matches the prefix. -/
def genTransactionNumber (existing : List (List Char)) (d : List Char) : List Char :=
  match maxStr (existing.filter (fun s => (txnPre d).isPrefixOf s)) with
  | none => mkTxnNumber d 1
  | some last => mkTxnNumber d (parseNatChars (lastAfterDash last) + 1)

/-- The numbers generated by a sequential history of `n` transaction
creations on the same day, oldest first. -/
def numbersAfter (d : List Char) : Nat → List (List Char)
  | 0 => []
  | n + 1 =>
    let prev := numbersAfter d n
    prev ++ [genTransactionNumber prev d]

/-! ## Data model -/

/-- Transaction status (`SalesTransaction.STATUS_CHOICES`). -/
inductive TxStatus
  | PENDING
  | COMPLETED
  | VOID
  | REFUNDED
deriving DecidableEq

/-- Inventory movement type, as used by the pos app. -/
inductive MovementType
  | SALE
  | RETURN
deriving DecidableEq

/-- `inventory.Product` as the pos app sees it (id, prices in centavos,
current stock, active flag). -/
structure Product where
  id : Nat
  unit_price : Int
  cost_price : Int
  current_stock : Int
  is_active : Bool
deriving DecidableEq

/-- One row of the `InventoryMovement` ledger, with the fields the pos app
writes. -/
structure InventoryMovement where
  product : Nat
  movement_type : MovementType
  quantity : Int
  reference_number : List Char
  created_by : Nat
deriving DecidableEq

/-- `TransactionItem`: one line of a sales transaction. -/
structure TransactionItem where
  product : Nat
  quantity : Int
  unit_price : Int
  discount : Int
  line_total : Int
deriving DecidableEq

/-- `SalesTransaction`, carrying its related `TransactionItem` rows. -/
structure SalesTransaction where
  transaction_number : List Char
  subtotal : Int
  tax : Int
  discount : Int
  total_amount : Int
  amount_paid : Int
  change_amount : Int
  status : TxStatus
  created_by : Nat
  completed_at : Option Nat
  voided_by : Option Nat
  voided_at : Option Nat
  void_reason : List Char
  items : List TransactionItem
deriving DecidableEq

/-- `CartItem`: product, quantity and the unit price snapshot taken when the
item was added. -/
structure CartItem where
  product : Nat
  quantity : Int
  unit_price : Int
deriving DecidableEq

/-- The requesting user's cart. -/
structure Cart where
  cart_items : List CartItem
  is_active : Bool
deriving DecidableEq

/-- The persistent state a pos request reads and writes: the product table,
the stored transactions, the inventory-movement ledger, and the requesting
user's cart. -/
structure PosState where
  products : List Product
  transactions : List SalesTransaction
  movements : List InventoryMovement
  cart : Cart
deriving DecidableEq

/-- The structured 4xx errors of the error taxonomy. -/
inductive PosError
  | VALIDATION
  | INSUFFICIENT_STOCK
  | INSUFFICIENT_PAYMENT
  | EMPTY_CART
  | NOT_FOUND
  | ALREADY_VOID
deriving DecidableEq

/-- Look a product up by id. -/
def findProduct (ps : List Product) (pid : Nat) : Option Product :=
  ps.find? (fun p => p.id == pid)

/-! ## Inventory movements and transaction lifecycle (models.py) -/

/-- Modelled from the spec: the inventory app (the `inventory` package, not
present under the pos sources) keeps `Product.current_stock` in step with
the movement ledger; per the spec a SALE movement is a "stock-deduction
movement" and a RETURN movement a "compensating stock-increase movement".
Creating a movement therefore adjusts the referenced product's stock. -/
def applyMovement (ps : List Product) (m : InventoryMovement) : List Product :=
  ps.map (fun p =>
    if p.id == m.product then
      { p with current_stock :=
          p.current_stock +
            (match m.movement_type with
             | MovementType.SALE => -m.quantity
             | MovementType.RETURN => m.quantity) }
    else p)

/-- The SALE movement `complete_transaction` creates for one item. -/
def mkSaleMovement (tx : SalesTransaction) (it : TransactionItem) : InventoryMovement :=
  { product := it.product
    movement_type := MovementType.SALE
    quantity := it.quantity
    reference_number := tx.transaction_number
    created_by := tx.created_by }

/-- `SalesTransaction.complete_transaction`: return unchanged when already
COMPLETED; otherwise set status COMPLETED with a completion timestamp and
create one SALE movement per item. -/
def complete_transaction (tx : SalesTransaction) (now : Nat)
    (ps : List Product) (mvs : List InventoryMovement) :
    SalesTransaction × List Product × List InventoryMovement :=
  if tx.status = TxStatus.COMPLETED then
    (tx, ps, mvs)
  else
    let newMvs := tx.items.map (mkSaleMovement tx)
    ({ tx with status := TxStatus.COMPLETED, completed_at := some now },
      newMvs.foldl applyMovement ps,
      mvs ++ newMvs)

/-- The RETURN movement `void_transaction` creates for one item, referencing
`VOID-<original transaction number>`. -/
def mkReturnMovement (tx : SalesTransaction) (user : Nat) (it : TransactionItem) : InventoryMovement :=
  { product := it.product
    movement_type := MovementType.RETURN
    quantity := it.quantity
    reference_number := ['V', 'O', 'I', 'D', '-'] ++ tx.transaction_number
    created_by := user }

/-- `SalesTransaction.void_transaction`: return unchanged when already VOID;
otherwise create one RETURN movement per item when the transaction was
COMPLETED, and set status VOID recording actor, timestamp and reason. -/
def void_transaction (tx : SalesTransaction) (user : Nat) (reason : List Char) (now : Nat)
    (ps : List Product) (mvs : List InventoryMovement) :
    SalesTransaction × List Product × List InventoryMovement :=
  if tx.status = TxStatus.VOID then
    (tx, ps, mvs)
  else
    let restore :=
      if tx.status = TxStatus.COMPLETED then tx.items.map (mkReturnMovement tx user) else []
    ({ tx with status := TxStatus.VOID, voided_by := some user,
               voided_at := some now, void_reason := reason },
      restore.foldl applyMovement ps,
      mvs ++ restore)

/-! ## Transaction creation (serializers.py) -/

/-- One entry of the `items` field of `SalesTransactionCreateSerializer`
(`TransactionItemCreateSerializer`): product id, quantity, unit price and
per-line discount (defaulted to 0 at the field level). -/
structure ItemInput where
  product : Nat
  quantity : Int
  unit_price : Int
  discount : Int
deriving DecidableEq

/-- The input of `SalesTransactionCreateSerializer` (fields not used by any
verified property — payment method and reference, notes, customer contact —
are plain pass-through strings and are omitted). -/
structure CreateInput where
  items : List ItemInput
  amount_paid : Int
  tax : Int
  discount : Int
deriving DecidableEq

/-- Field and object validation of one item line
(`TransactionItemCreateSerializer`): quantity must be positive
(`validate_quantity`), unit price and discount are non-negative (model
validators), the product must exist, and the quantity must not exceed the
product's current stock. -/
def validateItem (ps : List Product) (it : ItemInput) : Option PosError :=
  if it.quantity ≤ 0 then some PosError.VALIDATION
  else if it.unit_price < 0 then some PosError.VALIDATION
  else if it.discount < 0 then some PosError.VALIDATION
  else
    match findProduct ps it.product with
    | none => some PosError.VALIDATION
    | some p =>
      if p.current_stock < it.quantity then some PosError.INSUFFICIENT_STOCK
      else none

/-- The first validation error over the item lines, if any. -/
def firstItemError (ps : List Product) : List ItemInput → Option PosError
  | [] => none
  | it :: rest =>
    match validateItem ps it with
    | some e => some e
    | none => firstItemError ps rest

/-- `subtotal = sum((unit_price * quantity) - discount for each item)` from
`SalesTransactionCreateSerializer.validate`. -/
def calcSubtotal (items : List ItemInput) : Int :=
  items.foldl (fun acc it => acc + (it.unit_price * it.quantity - it.discount)) 0

/-- The `TransactionItem` row created for one input line; its `save`
computes `line_total = unit_price * quantity - discount`. -/
def mkTransactionItem (it : ItemInput) : TransactionItem :=
  { product := it.product
    quantity := it.quantity
    unit_price := it.unit_price
    discount := it.discount
    line_total := it.unit_price * it.quantity - it.discount }

/-- `SalesTransactionCreateSerializer` end to end: field validation
(non-negative amounts, per-item checks, at least one item), object
validation (`validate`: reject INSUFFICIENT_PAYMENT when
`amount_paid < subtotal + tax - discount`), then the `create` method under
`transaction.atomic`: create the header (whose `save` generates the
transaction number), create the items, and run `complete_transaction`.
An error result models the rolled-back request: nothing is persisted. -/
def createTransaction (st : PosState) (inp : CreateInput) (user : Nat) (now : Nat)
    (dateStr : List Char) : Except PosError (SalesTransaction × PosState) :=
  if inp.amount_paid < 0 ∨ inp.tax < 0 ∨ inp.discount < 0 then
    Except.error PosError.VALIDATION
  else
    match firstItemError st.products inp.items with
    | some e => Except.error e
    | none =>
      if inp.items.isEmpty then Except.error PosError.VALIDATION
      else
        let subtotal := calcSubtotal inp.items
        let total := subtotal + inp.tax - inp.discount
        if inp.amount_paid < total then Except.error PosError.INSUFFICIENT_PAYMENT
        else
          let num := genTransactionNumber (st.transactions.map (fun t => t.transaction_number)) dateStr
          let tx : SalesTransaction :=
            { transaction_number := num
              subtotal := subtotal
              tax := inp.tax
              discount := inp.discount
              total_amount := total
              amount_paid := inp.amount_paid
              change_amount := inp.amount_paid - total
              status := TxStatus.PENDING
              created_by := user
              completed_at := none
              voided_by := none
              voided_at := none
              void_reason := []
              items := inp.items.map mkTransactionItem }
          let res := complete_transaction tx now st.products st.movements
          Except.ok (res.1,
            { st with products := res.2.1
                      movements := res.2.2
                      transactions := st.transactions ++ [res.1] })

/-! ## Views (views.py) -/

/-- `CheckoutView.post`: look up the active cart (404 when none), reject an
empty cart, project each cart line into the transaction input carrying the
cart line's captured unit price and a zero line discount, delegate to the
create serializer, and on success clear the cart and deactivate it.  An
error in creation leaves the state unchanged. -/
def checkout (st : PosState) (amount_paid tax discount : Int) (user now : Nat)
    (dateStr : List Char) : Except PosError SalesTransaction × PosState :=
  if st.cart.is_active = false then
    (Except.error PosError.NOT_FOUND, st)
  else if st.cart.cart_items.isEmpty then
    (Except.error PosError.EMPTY_CART, st)
  else
    let items := st.cart.cart_items.map (fun ci =>
      { product := ci.product
        quantity := ci.quantity
        unit_price := ci.unit_price
        discount := 0 : ItemInput })
    match createTransaction st
        { items := items, amount_paid := amount_paid, tax := tax, discount := discount }
        user now dateStr with
    | Except.error e => (Except.error e, st)
    | Except.ok (tx, st') =>
      (Except.ok tx, { st' with cart := { cart_items := [], is_active := false } })

/-- `AddToCartView.post`: serializer validation (quantity at least 1,
product exists and is active, requested quantity within stock), then
get-or-create of the active cart and of the cart line; on an existing line
the new quantity is the existing plus the requested one, re-checked against
stock before being persisted. -/
def addToCart (st : PosState) (pid : Nat) (qty : Int) : Option PosError × PosState :=
  if qty < 1 then (some PosError.VALIDATION, st)
  else
    match findProduct st.products pid with
    | none => (some PosError.VALIDATION, st)
    | some p =>
      if p.is_active = false then (some PosError.VALIDATION, st)
      else if p.current_stock < qty then (some PosError.INSUFFICIENT_STOCK, st)
      else
        let cart := if st.cart.is_active then st.cart else { cart_items := [], is_active := true }
        match cart.cart_items.find? (fun ci => ci.product == pid) with
        | none =>
          (none, { st with cart :=
            { cart with cart_items :=
                cart.cart_items ++ [{ product := pid, quantity := qty, unit_price := p.unit_price }] } })
        | some existing =>
          let newQuantity := existing.quantity + qty
          if p.current_stock < newQuantity then (some PosError.INSUFFICIENT_STOCK, st)
          else
            (none, { st with cart :=
              { cart with cart_items := cart.cart_items.map (fun ci =>
                  if ci.product == pid then { ci with quantity := newQuantity } else ci) } })

/-- `UpdateCartItemView.patch`: look the line up in the caller's active cart
(the line is addressed by its product, unique per cart), reject a quantity
below 1, reject a quantity above the product's current stock, and otherwise
persist the requested quantity exactly. -/
def updateCartItem (st : PosState) (pid : Nat) (qty : Int) : Option PosError × PosState :=
  if st.cart.is_active = false then (some PosError.NOT_FOUND, st)
  else
    match st.cart.cart_items.find? (fun ci => ci.product == pid) with
    | none => (some PosError.NOT_FOUND, st)
    | some ci =>
      if qty < 1 then (some PosError.VALIDATION, st)
      else
        match findProduct st.products ci.product with
        | none => (some PosError.NOT_FOUND, st)
        | some p =>
          if p.current_stock < qty then (some PosError.INSUFFICIENT_STOCK, st)
          else
            (none, { st with cart :=
              { st.cart with cart_items := st.cart.cart_items.map (fun c =>
                  if c.product == pid then { c with quantity := qty } else c) } })

/-- `VoidTransactionView.post`: look the transaction up by primary key
(modelled as its index in the stored list), answer 404 when absent, 400 when
already VOID, and otherwise run `void_transaction` and persist its result. -/
def voidView (st : PosState) (i : Nat) (user : Nat) (reason : List Char) (now : Nat) :
    Option PosError × PosState :=
  match st.transactions[i]? with
  | none => (some PosError.NOT_FOUND, st)
  | some tx =>
    if tx.status = TxStatus.VOID then (some PosError.ALREADY_VOID, st)
    else
      let res := void_transaction tx user reason now st.products st.movements
      (none, { st with transactions := st.transactions.set i res.1
                       products := res.2.1
                       movements := res.2.2 })

/-- The quantity the cart currently holds for a product (0 when the product
has no line). -/
def cartQty (c : Cart) (pid : Nat) : Int :=
  match c.cart_items.find? (fun ci => ci.product == pid) with
  | some ci => ci.quantity
  | none => 0

/-! ## Profit (models.py properties, recomputed at read time) -/

/-- The current cost price of a product (the FK dereference
`item.product.cost_price`). -/
def costOf (ps : List Product) (pid : Nat) : Int :=
  match findProduct ps pid with
  | some p => p.cost_price
  | none => 0

/-- `TransactionItem.profit`: `(unit_price - product.cost_price) * quantity`,
read against the current product table. -/
def item_profit (ps : List Product) (it : TransactionItem) : Int :=
  (it.unit_price - costOf ps it.product) * it.quantity

/-- `SalesTransaction.profit`: the running sum of the item profits. -/
def transaction_profit (ps : List Product) (tx : SalesTransaction) : Int :=
  tx.items.foldl (fun acc it => acc + item_profit ps it) 0

/-- Replace one product's cost price in the catalog. -/
def updateCostPrice (ps : List Product) (pid : Nat) (c : Int) : List Product :=
  ps.map (fun p => if p.id == pid then { p with cost_price := c } else p)

/-- The total quantity of a given product over a transaction's items. -/
def qtyOfProduct (tx : SalesTransaction) (pid : Nat) : Int :=
  tx.items.foldl (fun acc it => if it.product == pid then acc + it.quantity else acc) 0

/-! ## Lifecycle theorems -/

/-- C10: `complete_transaction` is idempotent: on a transaction whose status
is already COMPLETED it returns immediately, emitting no additional SALE
inventory movements and changing no fields, so inventory is never deducted
twice for the same transaction. -/
theorem claim_C10_complete_transaction_idempotent
    (tx : SalesTransaction) (now : Nat) (ps : List Product) (mvs : List InventoryMovement)
    (h : tx.status = TxStatus.COMPLETED) :
    complete_transaction tx now ps mvs = (tx, ps, mvs) := by
  simp [complete_transaction, h]

theorem claim_C10_witness :
    complete_transaction
      { transaction_number := ['T'], subtotal := 3000, tax := 0, discount := 0,
        total_amount := 3000, amount_paid := 3000, change_amount := 0,
        status := TxStatus.COMPLETED, created_by := 7, completed_at := some 5,
        voided_by := none, voided_at := none, void_reason := [],
        items := [{ product := 1, quantity := 3, unit_price := 1000, discount := 0, line_total := 3000 }] }
      9 [] []
    = ({ transaction_number := ['T'], subtotal := 3000, tax := 0, discount := 0,
         total_amount := 3000, amount_paid := 3000, change_amount := 0,
         status := TxStatus.COMPLETED, created_by := 7, completed_at := some 5,
         voided_by := none, voided_at := none, void_reason := [],
         items := [{ product := 1, quantity := 3, unit_price := 1000, discount := 0, line_total := 3000 }] },
       [], []) :=
  claim_C10_complete_transaction_idempotent _ 9 [] [] rfl

/-- C5: voiding a transaction whose status is already VOID is a no-op: the
model method returns everything unchanged (status stays VOID, no restore
movements, no field changes), and the void endpoint rejects the request
with the already-voided error, leaving the state untouched. -/
theorem claim_C5_void_already_void_noop
    (st : PosState) (i : Nat) (user : Nat) (reason : List Char) (now : Nat)
    (tx : SalesTransaction)
    (h : st.transactions[i]? = some tx) (hv : tx.status = TxStatus.VOID) :
    void_transaction tx user reason now st.products st.movements = (tx, st.products, st.movements)
    ∧ voidView st i user reason now = (some PosError.ALREADY_VOID, st) := by
  constructor
  · simp [void_transaction, hv]
  · simp [voidView, h, hv]

theorem claim_C5_witness :
    void_transaction
      { transaction_number := ['T'], subtotal := 3000, tax := 0, discount := 0,
        total_amount := 3000, amount_paid := 3000, change_amount := 0,
        status := TxStatus.VOID, created_by := 7, completed_at := some 5,
        voided_by := some 8, voided_at := some 6, void_reason := ['x'],
        items := [{ product := 1, quantity := 3, unit_price := 1000, discount := 0, line_total := 3000 }] }
      9 ['y'] 11 [] []
    = ({ transaction_number := ['T'], subtotal := 3000, tax := 0, discount := 0,
         total_amount := 3000, amount_paid := 3000, change_amount := 0,
         status := TxStatus.VOID, created_by := 7, completed_at := some 5,
         voided_by := some 8, voided_at := some 6, void_reason := ['x'],
         items := [{ product := 1, quantity := 3, unit_price := 1000, discount := 0, line_total := 3000 }] },
       [], [])
    ∧ voidView
        { products := [], movements := [], cart := { cart_items := [], is_active := false },
          transactions :=
            [{ transaction_number := ['T'], subtotal := 3000, tax := 0, discount := 0,
               total_amount := 3000, amount_paid := 3000, change_amount := 0,
               status := TxStatus.VOID, created_by := 7, completed_at := some 5,
               voided_by := some 8, voided_at := some 6, void_reason := ['x'],
               items := [{ product := 1, quantity := 3, unit_price := 1000, discount := 0, line_total := 3000 }] }] }
        0 9 ['y'] 11
      = (some PosError.ALREADY_VOID,
         { products := [], movements := [], cart := { cart_items := [], is_active := false },
           transactions :=
             [{ transaction_number := ['T'], subtotal := 3000, tax := 0, discount := 0,
                total_amount := 3000, amount_paid := 3000, change_amount := 0,
                status := TxStatus.VOID, created_by := 7, completed_at := some 5,
                voided_by := some 8, voided_at := some 6, void_reason := ['x'],
                items := [{ product := 1, quantity := 3, unit_price := 1000, discount := 0, line_total := 3000 }] }] }) := by
  exact claim_C5_void_already_void_noop
    { products := [], movements := [], cart := { cart_items := [], is_active := false },
      transactions :=
        [{ transaction_number := ['T'], subtotal := 3000, tax := 0, discount := 0,
           total_amount := 3000, amount_paid := 3000, change_amount := 0,
           status := TxStatus.VOID, created_by := 7, completed_at := some 5,
           voided_by := some 8, voided_at := some 6, void_reason := ['x'],
           items := [{ product := 1, quantity := 3, unit_price := 1000, discount := 0, line_total := 3000 }] }] }
    0 9 ['y'] 11
    { transaction_number := ['T'], subtotal := 3000, tax := 0, discount := 0,
      total_amount := 3000, amount_paid := 3000, change_amount := 0,
      status := TxStatus.VOID, created_by := 7, completed_at := some 5,
      voided_by := some 8, voided_at := some 6, void_reason := ['x'],
      items := [{ product := 1, quantity := 3, unit_price := 1000, discount := 0, line_total := 3000 }] }
    (by decide) rfl

/-- C4: voiding a COMPLETED transaction emits exactly one RETURN movement
per transaction item, whose quantity equals the quantity the completion
deducted for that item (the SALE movements carry the same product/quantity
pairs) and whose reference number is `VOID-` followed by the original
transaction number, and it sets status VOID recording the voiding actor,
timestamp and reason. -/
theorem claim_C4_void_completed
    (tx : SalesTransaction) (user : Nat) (reason : List Char) (now : Nat)
    (ps : List Product) (mvs : List InventoryMovement)
    (h : tx.status = TxStatus.COMPLETED) :
    void_transaction tx user reason now ps mvs =
      ({ tx with status := TxStatus.VOID, voided_by := some user,
                 voided_at := some now, void_reason := reason },
        (tx.items.map (mkReturnMovement tx user)).foldl applyMovement ps,
        mvs ++ tx.items.map (mkReturnMovement tx user))
    ∧ (tx.items.map (mkReturnMovement tx user)).map (fun m => (m.product, m.quantity))
        = (tx.items.map (mkSaleMovement tx)).map (fun m => (m.product, m.quantity))
    ∧ ∀ m ∈ tx.items.map (mkReturnMovement tx user),
        m.movement_type = MovementType.RETURN ∧
        m.reference_number = ['V', 'O', 'I', 'D', '-'] ++ tx.transaction_number ∧
        m.created_by = user := by
  refine ⟨?_, ?_, ?_⟩
  · simp [void_transaction, h]
  · simp [List.map_map, mkReturnMovement, mkSaleMovement, Function.comp]
  · intro m hm
    simp only [List.mem_map] at hm
    obtain ⟨it, _, rfl⟩ := hm
    simp [mkReturnMovement]

theorem claim_C4_witness :
    void_transaction
      { transaction_number := ['T', '1'], subtotal := 3000, tax := 0, discount := 0,
        total_amount := 3000, amount_paid := 3000, change_amount := 0,
        status := TxStatus.COMPLETED, created_by := 7, completed_at := some 5,
        voided_by := none, voided_at := none, void_reason := [],
        items := [{ product := 1, quantity := 3, unit_price := 1000, discount := 0, line_total := 3000 }] }
      9 ['d'] 11
      [{ id := 1, unit_price := 1000, cost_price := 600, current_stock := 2, is_active := true }] []
    = ({ transaction_number := ['T', '1'], subtotal := 3000, tax := 0, discount := 0,
         total_amount := 3000, amount_paid := 3000, change_amount := 0,
         status := TxStatus.VOID, created_by := 7, completed_at := some 5,
         voided_by := some 9, voided_at := some 11, void_reason := ['d'],
         items := [{ product := 1, quantity := 3, unit_price := 1000, discount := 0, line_total := 3000 }] },
       [{ id := 1, unit_price := 1000, cost_price := 600, current_stock := 5, is_active := true }],
       [{ product := 1, movement_type := MovementType.RETURN, quantity := 3,
          reference_number := ['V', 'O', 'I', 'D', '-', 'T', '1'], created_by := 9 }]) := by
  have h := claim_C4_void_completed
    { transaction_number := ['T', '1'], subtotal := 3000, tax := 0, discount := 0,
      total_amount := 3000, amount_paid := 3000, change_amount := 0,
      status := TxStatus.COMPLETED, created_by := 7, completed_at := some 5,
      voided_by := none, voided_at := none, void_reason := [],
      items := [{ product := 1, quantity := 3, unit_price := 1000, discount := 0, line_total := 3000 }] }
    9 ['d'] 11
    [{ id := 1, unit_price := 1000, cost_price := 600, current_stock := 2, is_active := true }] []
    rfl
  rw [h.1]
  decide

/-! ## Profit theorems -/

lemma findProduct_updateCostPrice (ps : List Product) (pid : Nat) (c : Int) (q : Nat) :
    findProduct (updateCostPrice ps pid c) q
      = (findProduct ps q).map (fun p => if p.id == pid then { p with cost_price := c } else p) := by
  induction ps with
  | nil => rfl
  | cons p rest ih =>
    have hid : (if (p.id == pid) = true then { p with cost_price := c } else p).id = p.id := by
      by_cases h2 : (p.id == pid) = true <;> simp [h2]
    simp only [findProduct, updateCostPrice, List.map_cons] at *
    by_cases hpq : (p.id == q) = true
    · simp only [List.find?_cons, hid, hpq, Option.map_some]
      rfl
    · have hf : (p.id == q) = false := by simpa using hpq
      simp only [List.find?_cons, hid, hf, ih]

lemma costOf_updateCostPrice_self (ps : List Product) (pid : Nat) (c : Int)
    (p : Product) (h : findProduct ps pid = some p) :
    costOf (updateCostPrice ps pid c) pid = c := by
  have hp : p.id = pid := by
    unfold findProduct at h
    have h2 := List.find?_some h
    simpa using h2
  simp [costOf, findProduct_updateCostPrice, h, hp]

lemma costOf_updateCostPrice_other (ps : List Product) (pid : Nat) (c : Int)
    (q : Nat) (hq : q ≠ pid) :
    costOf (updateCostPrice ps pid c) q = costOf ps q := by
  simp only [costOf, findProduct_updateCostPrice]
  cases h : findProduct ps q with
  | none => rfl
  | some r =>
    have hrq : r.id = q := by
      unfold findProduct at h
      have h2 := List.find?_some h
      simpa using h2
    simp [hrq, hq]

lemma foldl_add_eq_sum (f : TransactionItem → Int) (l : List TransactionItem) (a : Int) :
    l.foldl (fun acc it => acc + f it) a = a + (l.map f).sum := by
  induction l generalizing a with
  | nil => simp
  | cons it rest ih =>
    simp only [List.foldl_cons, List.map_cons, List.sum_cons, ih]
    ring

lemma qtyOfProduct_eq_sum (tx : SalesTransaction) (pid : Nat) :
    qtyOfProduct tx pid
      = (tx.items.map (fun it => if it.product == pid then it.quantity else 0)).sum := by
  unfold qtyOfProduct
  suffices h : ∀ (l : List TransactionItem) (a : Int),
      l.foldl (fun acc it => if it.product == pid then acc + it.quantity else acc) a
        = a + (l.map (fun it => if it.product == pid then it.quantity else 0)).sum by
    simpa using h tx.items 0
  intro l
  induction l with
  | nil => simp
  | cons it rest ih =>
    intro a
    by_cases hit : it.product = pid
    · simp only [List.foldl_cons, List.map_cons, List.sum_cons, hit, beq_self_eq_true, if_true, ih]
      ring
    · simp only [List.foldl_cons, List.map_cons, List.sum_cons,
        show (it.product == pid) = false by simp [hit], Bool.false_eq_true, if_false, ih]
      ring

lemma transaction_profit_eq_sum (ps : List Product) (tx : SalesTransaction) :
    transaction_profit ps tx = (tx.items.map (item_profit ps)).sum := by
  unfold transaction_profit
  simpa using foldl_add_eq_sum (item_profit ps) tx.items 0

/-- C9: profit is recomputed at read time against the product's current
cost price: the transaction profit is the sum over its items of
`(unit_price - cost_price) * quantity` with `cost_price` read from the
catalog now, so updating a product's cost price shifts the reported profit
of every past transaction containing that product by the cost delta times
the quantity sold, and changes it whenever that product of the transaction
was sold in nonzero quantity. -/
theorem claim_C9_profit_recomputed
    (ps : List Product) (pid : Nat) (c : Int) (p : Product) (tx : SalesTransaction)
    (h : findProduct ps pid = some p) :
    transaction_profit ps tx
      = (tx.items.map (fun it => (it.unit_price - costOf ps it.product) * it.quantity)).sum
    ∧ transaction_profit (updateCostPrice ps pid c) tx
        = transaction_profit ps tx + (p.cost_price - c) * qtyOfProduct tx pid
    ∧ (qtyOfProduct tx pid ≠ 0 → c ≠ p.cost_price →
        transaction_profit (updateCostPrice ps pid c) tx ≠ transaction_profit ps tx) := by
  have hcost : costOf ps pid = p.cost_price := by simp [costOf, h]
  have hshift : transaction_profit (updateCostPrice ps pid c) tx
      = transaction_profit ps tx + (p.cost_price - c) * qtyOfProduct tx pid := by
    rw [transaction_profit_eq_sum, transaction_profit_eq_sum, qtyOfProduct_eq_sum]
    generalize tx.items = l
    induction l with
    | nil => simp
    | cons it rest ih =>
      simp only [List.map_cons, List.sum_cons]
      rw [ih]
      by_cases hit : (it.product == pid) = true
      · have hpid : it.product = pid := by simpa using hit
        rw [show item_profit (updateCostPrice ps pid c) it
              = (it.unit_price - c) * it.quantity by
            simp [item_profit, hpid, costOf_updateCostPrice_self ps pid c p h]]
        rw [show item_profit ps it = (it.unit_price - p.cost_price) * it.quantity by
            simp [item_profit, hpid, hcost]]
        simp only [hit, if_true]
        ring
      · have hpid : it.product ≠ pid := by simpa using hit
        rw [show item_profit (updateCostPrice ps pid c) it = item_profit ps it by
            simp [item_profit, costOf_updateCostPrice_other ps pid c it.product hpid]]
        simp only [show (it.product == pid) = false by simpa using hit, Bool.false_eq_true, if_false]
        ring
  refine ⟨?_, hshift, ?_⟩
  · rw [transaction_profit_eq_sum]
    rfl
  · intro hqty hc
    rw [hshift]
    have : (p.cost_price - c) * qtyOfProduct tx pid ≠ 0 :=
      mul_ne_zero (by omega) hqty
    omega

theorem claim_C9_witness :
    transaction_profit
      [{ id := 1, unit_price := 1000, cost_price := 600, current_stock := 5, is_active := true }]
      { transaction_number := ['T'], subtotal := 3000, tax := 0, discount := 0,
        total_amount := 3000, amount_paid := 3000, change_amount := 0,
        status := TxStatus.COMPLETED, created_by := 7, completed_at := some 5,
        voided_by := none, voided_at := none, void_reason := [],
        items := [{ product := 1, quantity := 3, unit_price := 1000, discount := 0, line_total := 3000 }] }
      = 1200
    ∧ transaction_profit
        (updateCostPrice
          [{ id := 1, unit_price := 1000, cost_price := 600, current_stock := 5, is_active := true }] 1 700)
        { transaction_number := ['T'], subtotal := 3000, tax := 0, discount := 0,
          total_amount := 3000, amount_paid := 3000, change_amount := 0,
          status := TxStatus.COMPLETED, created_by := 7, completed_at := some 5,
          voided_by := none, voided_at := none, void_reason := [],
          items := [{ product := 1, quantity := 3, unit_price := 1000, discount := 0, line_total := 3000 }] }
      ≠ transaction_profit
        [{ id := 1, unit_price := 1000, cost_price := 600, current_stock := 5, is_active := true }]
        { transaction_number := ['T'], subtotal := 3000, tax := 0, discount := 0,
          total_amount := 3000, amount_paid := 3000, change_amount := 0,
          status := TxStatus.COMPLETED, created_by := 7, completed_at := some 5,
          voided_by := none, voided_at := none, void_reason := [],
          items := [{ product := 1, quantity := 3, unit_price := 1000, discount := 0, line_total := 3000 }] } := by
  constructor
  · decide
  · exact (claim_C9_profit_recomputed
      [{ id := 1, unit_price := 1000, cost_price := 600, current_stock := 5, is_active := true }]
      1 700
      { id := 1, unit_price := 1000, cost_price := 600, current_stock := 5, is_active := true }
      { transaction_number := ['T'], subtotal := 3000, tax := 0, discount := 0,
        total_amount := 3000, amount_paid := 3000, change_amount := 0,
        status := TxStatus.COMPLETED, created_by := 7, completed_at := some 5,
        voided_by := none, voided_at := none, void_reason := [],
        items := [{ product := 1, quantity := 3, unit_price := 1000, discount := 0, line_total := 3000 }] }
      rfl).2.2 (by decide) (by decide)


/-! ## Transaction-creation theorems -/

lemma createTransaction_ok_inv (st : PosState) (inp : CreateInput) (user now : Nat)
    (dateStr : List Char) (tx : SalesTransaction) (st' : PosState)
    (h : createTransaction st inp user now dateStr = Except.ok (tx, st')) :
    tx.subtotal = calcSubtotal inp.items
    ∧ tx.tax = inp.tax ∧ tx.discount = inp.discount
    ∧ tx.total_amount = calcSubtotal inp.items + inp.tax - inp.discount
    ∧ tx.amount_paid = inp.amount_paid
    ∧ tx.change_amount = inp.amount_paid - (calcSubtotal inp.items + inp.tax - inp.discount)
    ∧ tx.status = TxStatus.COMPLETED
    ∧ tx.items = inp.items.map mkTransactionItem
    ∧ st'.cart = st.cart
    ∧ st'.transactions = st.transactions ++ [tx] := by
  simp only [createTransaction] at h
  split at h
  · exact absurd h (by simp)
  · split at h
    · exact absurd h (by simp)
    · split at h
      · exact absurd h (by simp)
      · split at h
        · exact absurd h (by simp)
        · simp only [complete_transaction] at h
          split at h
          · next hc =>
              exact absurd hc (by simp)
          · simp only [Except.ok.injEq, Prod.mk.injEq] at h
            obtain ⟨h1, h2⟩ := h
            subst h1
            subst h2
            simp


lemma subtotal_over_items (items : List ItemInput) :
    (items.map mkTransactionItem).foldl
        (fun acc it => acc + (it.unit_price * it.quantity - it.discount)) 0
      = calcSubtotal items := by
  rw [List.foldl_map]
  rfl

/-- C1: every transaction stored by the create serializer satisfies the
two-decimal-exact accounting identities: its subtotal is the sum over its
items of `unit_price * quantity - line_discount`, its total is
`subtotal + tax - discount`, and its change is `amount_paid - total`;
each stored item's line total is `unit_price * quantity - discount`. -/
theorem claim_C1_stored_amounts (st : PosState) (inp : CreateInput) (user now : Nat)
    (dateStr : List Char) (tx : SalesTransaction) (st' : PosState)
    (h : createTransaction st inp user now dateStr = Except.ok (tx, st')) :
    tx.subtotal = tx.items.foldl
        (fun acc it => acc + (it.unit_price * it.quantity - it.discount)) 0
    ∧ tx.total_amount = tx.subtotal + tx.tax - tx.discount
    ∧ tx.change_amount = tx.amount_paid - tx.total_amount
    ∧ ∀ it ∈ tx.items, it.line_total = it.unit_price * it.quantity - it.discount := by
  obtain ⟨hs, htax, hdisc, htot, hap, hch, _, hitems, _, _⟩ :=
    createTransaction_ok_inv st inp user now dateStr tx st' h
  refine ⟨?_, ?_, ?_, ?_⟩
  · rw [hs, hitems, subtotal_over_items]
  · rw [htot, hs, htax, hdisc]
  · rw [hch, hap, htot]
  · intro it hit
    rw [hitems] at hit
    simp only [List.mem_map] at hit
    obtain ⟨x, _, rfl⟩ := hit
    rfl

theorem claim_C1_witness :
    createTransaction
      { products := [{ id := 1, unit_price := 1000, cost_price := 600, current_stock := 5, is_active := true }],
        transactions := [], movements := [],
        cart := { cart_items := [], is_active := false } }
      { items := [{ product := 1, quantity := 3, unit_price := 1000, discount := 0 }],
        amount_paid := 3000, tax := 0, discount := 0 }
      7 99 ['2', '0', '2', '5', '0', '1', '0', '1']
    = Except.ok
      ({ transaction_number := ['T', 'X', 'N', '-', '2', '0', '2', '5', '0', '1', '0', '1', '-', '0', '0', '0', '1'],
         subtotal := 3000, tax := 0, discount := 0, total_amount := 3000,
         amount_paid := 3000, change_amount := 0, status := TxStatus.COMPLETED,
         created_by := 7, completed_at := some 99, voided_by := none, voided_at := none,
         void_reason := [],
         items := [{ product := 1, quantity := 3, unit_price := 1000, discount := 0, line_total := 3000 }] },
       { products := [{ id := 1, unit_price := 1000, cost_price := 600, current_stock := 2, is_active := true }],
         transactions :=
           [{ transaction_number := ['T', 'X', 'N', '-', '2', '0', '2', '5', '0', '1', '0', '1', '-', '0', '0', '0', '1'],
              subtotal := 3000, tax := 0, discount := 0, total_amount := 3000,
              amount_paid := 3000, change_amount := 0, status := TxStatus.COMPLETED,
              created_by := 7, completed_at := some 99, voided_by := none, voided_at := none,
              void_reason := [],
              items := [{ product := 1, quantity := 3, unit_price := 1000, discount := 0, line_total := 3000 }] }],
         movements :=
           [{ product := 1, movement_type := MovementType.SALE, quantity := 3,
              reference_number := ['T', 'X', 'N', '-', '2', '0', '2', '5', '0', '1', '0', '1', '-', '0', '0', '0', '1'],
              created_by := 7 }],
         cart := { cart_items := [], is_active := false } })
    ∧ (3000 : Int) = 3000 + 0 - 0 ∧ (0 : Int) = 3000 - 3000 := by
  refine ⟨by rfl, ?_, ?_⟩
  · have h := claim_C1_stored_amounts
      { products := [{ id := 1, unit_price := 1000, cost_price := 600, current_stock := 5, is_active := true }],
        transactions := [], movements := [],
        cart := { cart_items := [], is_active := false } }
      { items := [{ product := 1, quantity := 3, unit_price := 1000, discount := 0 }],
        amount_paid := 3000, tax := 0, discount := 0 }
      7 99 ['2', '0', '2', '5', '0', '1', '0', '1']
      { transaction_number := ['T', 'X', 'N', '-', '2', '0', '2', '5', '0', '1', '0', '1', '-', '0', '0', '0', '1'],
        subtotal := 3000, tax := 0, discount := 0, total_amount := 3000,
        amount_paid := 3000, change_amount := 0, status := TxStatus.COMPLETED,
        created_by := 7, completed_at := some 99, voided_by := none, voided_at := none,
        void_reason := [],
        items := [{ product := 1, quantity := 3, unit_price := 1000, discount := 0, line_total := 3000 }] }
      { products := [{ id := 1, unit_price := 1000, cost_price := 600, current_stock := 2, is_active := true }],
        transactions :=
          [{ transaction_number := ['T', 'X', 'N', '-', '2', '0', '2', '5', '0', '1', '0', '1', '-', '0', '0', '0', '1'],
             subtotal := 3000, tax := 0, discount := 0, total_amount := 3000,
             amount_paid := 3000, change_amount := 0, status := TxStatus.COMPLETED,
             created_by := 7, completed_at := some 99, voided_by := none, voided_at := none,
             void_reason := [],
             items := [{ product := 1, quantity := 3, unit_price := 1000, discount := 0, line_total := 3000 }] }],
        movements :=
          [{ product := 1, movement_type := MovementType.SALE, quantity := 3,
             reference_number := ['T', 'X', 'N', '-', '2', '0', '2', '5', '0', '1', '0', '1', '-', '0', '0', '0', '1'],
             created_by := 7 }],
        cart := { cart_items := [], is_active := false } }
      (by rfl)
    exact h.2.1
  · decide


/-! ## Checkout theorems -/

lemma checkout_error_state (st : PosState) (a t d : Int) (user now : Nat)
    (dateStr : List Char) (e : PosError) (st₂ : PosState)
    (h : checkout st a t d user now dateStr = (Except.error e, st₂)) : st₂ = st := by
  simp only [checkout] at h
  split at h
  · simp only [Prod.mk.injEq] at h
    exact h.2.symm
  · split at h
    · simp only [Prod.mk.injEq] at h
      exact h.2.symm
    · split at h
      · simp only [Prod.mk.injEq] at h
        exact h.2.symm
      · simp only [Prod.mk.injEq] at h
        exact absurd h.1 (by simp)

/-- C3: transaction creation through checkout is all-or-nothing: whenever it
answers an error (such as a line whose quantity exceeds the product's
current stock), the resulting state is exactly the initial one — no
transaction header, no transaction items, no inventory movements were
persisted, the product table is untouched and the caller's cart is
unchanged. -/
theorem claim_C3_checkout_atomic (st : PosState) (a t d : Int) (user now : Nat)
    (dateStr : List Char) (e : PosError) (st₂ : PosState)
    (h : checkout st a t d user now dateStr = (Except.error e, st₂)) :
    st₂ = st ∧ st₂.transactions = st.transactions ∧ st₂.movements = st.movements
    ∧ st₂.products = st.products ∧ st₂.cart = st.cart := by
  have hst := checkout_error_state st a t d user now dateStr e st₂ h
  subst hst
  exact ⟨rfl, rfl, rfl, rfl, rfl⟩

theorem claim_C3_witness :
    checkout
      { products := [{ id := 1, unit_price := 1000, cost_price := 600, current_stock := 2, is_active := true }],
        transactions := [], movements := [],
        cart := { cart_items := [{ product := 1, quantity := 3, unit_price := 1000 }], is_active := true } }
      3000 0 0 7 99 ['2', '0', '2', '5', '0', '1', '0', '1']
    = (Except.error PosError.INSUFFICIENT_STOCK,
       { products := [{ id := 1, unit_price := 1000, cost_price := 600, current_stock := 2, is_active := true }],
         transactions := [], movements := [],
         cart := { cart_items := [{ product := 1, quantity := 3, unit_price := 1000 }], is_active := true } })
    ∧ ({ products := [{ id := 1, unit_price := 1000, cost_price := 600, current_stock := 2, is_active := true }],
         transactions := [], movements := [],
         cart := { cart_items := [{ product := 1, quantity := 3, unit_price := 1000 }], is_active := true } } : PosState)
      = { products := [{ id := 1, unit_price := 1000, cost_price := 600, current_stock := 2, is_active := true }],
          transactions := [], movements := [],
          cart := { cart_items := [{ product := 1, quantity := 3, unit_price := 1000 }], is_active := true } } := by
  refine ⟨by rfl, ?_⟩
  exact (claim_C3_checkout_atomic
    { products := [{ id := 1, unit_price := 1000, cost_price := 600, current_stock := 2, is_active := true }],
      transactions := [], movements := [],
      cart := { cart_items := [{ product := 1, quantity := 3, unit_price := 1000 }], is_active := true } }
    3000 0 0 7 99 ['2', '0', '2', '5', '0', '1', '0', '1']
    PosError.INSUFFICIENT_STOCK
    { products := [{ id := 1, unit_price := 1000, cost_price := 600, current_stock := 2, is_active := true }],
      transactions := [], movements := [],
      cart := { cart_items := [{ product := 1, quantity := 3, unit_price := 1000 }], is_active := true } }
    (by rfl)).1

/-- C6: given a request whose lines all validate (and non-negative payment
fields), the create serializer rejects with INSUFFICIENT_PAYMENT exactly
when `amount_paid < subtotal + tax - discount`; and a checkout rejection
leaves the product stock and the cart unchanged. -/
theorem claim_C6_insufficient_payment (st : PosState) (inp : CreateInput)
    (user now : Nat) (dateStr : List Char)
    (hpay : 0 ≤ inp.amount_paid) (htax : 0 ≤ inp.tax) (hdisc : 0 ≤ inp.discount)
    (hitems : inp.items ≠ [])
    (hvalid : firstItemError st.products inp.items = none) :
    (createTransaction st inp user now dateStr = Except.error PosError.INSUFFICIENT_PAYMENT
      ↔ inp.amount_paid < calcSubtotal inp.items + inp.tax - inp.discount)
    ∧ ∀ (a t d : Int) (e : PosError) (st₂ : PosState),
        checkout st a t d user now dateStr = (Except.error e, st₂) →
        st₂.products = st.products ∧ st₂.cart = st.cart := by
  constructor
  · have hempty : inp.items.isEmpty = false := by
      cases hi : inp.items with
      | nil => exact absurd hi hitems
      | cons x xs => rfl
    simp only [createTransaction,
      if_neg (show ¬ (inp.amount_paid < 0 ∨ inp.tax < 0 ∨ inp.discount < 0) by omega),
      hvalid, hempty, Bool.false_eq_true, if_false]
    by_cases hlt : inp.amount_paid < calcSubtotal inp.items + inp.tax - inp.discount
    · simp [hlt]
    · simp [hlt]
  · intro a t d e st₂ hck
    have hst := checkout_error_state st a t d user now dateStr e st₂ hck
    subst hst
    exact ⟨rfl, rfl⟩

theorem claim_C6_witness :
    (createTransaction
        { products := [{ id := 1, unit_price := 1000, cost_price := 600, current_stock := 5, is_active := true }],
          transactions := [], movements := [],
          cart := { cart_items := [{ product := 1, quantity := 3, unit_price := 1000 }], is_active := true } }
        { items := [{ product := 1, quantity := 3, unit_price := 1000, discount := 0 }],
          amount_paid := 2000, tax := 0, discount := 0 }
        7 99 ['2', '0', '2', '5', '0', '1', '0', '1']
      = Except.error PosError.INSUFFICIENT_PAYMENT
      ↔ (2000 : Int) < calcSubtotal [{ product := 1, quantity := 3, unit_price := 1000, discount := 0 }] + 0 - 0)
    ∧ ∀ (a t d : Int) (e : PosError) (st₂ : PosState),
        checkout
          { products := [{ id := 1, unit_price := 1000, cost_price := 600, current_stock := 5, is_active := true }],
            transactions := [], movements := [],
            cart := { cart_items := [{ product := 1, quantity := 3, unit_price := 1000 }], is_active := true } }
          a t d 7 99 ['2', '0', '2', '5', '0', '1', '0', '1'] = (Except.error e, st₂) →
        st₂.products
          = [{ id := 1, unit_price := 1000, cost_price := 600, current_stock := 5, is_active := true }]
        ∧ st₂.cart = { cart_items := [{ product := 1, quantity := 3, unit_price := 1000 }], is_active := true } := by
  exact claim_C6_insufficient_payment
    { products := [{ id := 1, unit_price := 1000, cost_price := 600, current_stock := 5, is_active := true }],
      transactions := [], movements := [],
      cart := { cart_items := [{ product := 1, quantity := 3, unit_price := 1000 }], is_active := true } }
    { items := [{ product := 1, quantity := 3, unit_price := 1000, discount := 0 }],
      amount_paid := 2000, tax := 0, discount := 0 }
    7 99 ['2', '0', '2', '5', '0', '1', '0', '1']
    (by decide) (by decide) (by decide) (by decide) (by rfl)


/-- C7: checkout of an active empty cart is rejected with EMPTY_CART; a
successful checkout builds its transaction lines from the cart lines,
carrying each line's unit price captured at add-to-cart time (whatever the
live catalog price now is), and afterwards the cart holds no items and is
deactivated. -/
theorem claim_C7_checkout_cart (st : PosState) (a t d : Int) (user now : Nat)
    (dateStr : List Char) :
    (st.cart.is_active = true → st.cart.cart_items = [] →
      checkout st a t d user now dateStr = (Except.error PosError.EMPTY_CART, st))
    ∧ ∀ (tx : SalesTransaction) (st' : PosState),
        checkout st a t d user now dateStr = (Except.ok tx, st') →
        tx.items.map (fun it => (it.product, it.quantity, it.unit_price))
          = st.cart.cart_items.map (fun ci => (ci.product, ci.quantity, ci.unit_price))
        ∧ st'.cart.cart_items = [] ∧ st'.cart.is_active = false := by
  constructor
  · intro hact hempty
    simp [checkout, hact, hempty]
  · intro tx st' h
    simp only [checkout] at h
    split at h
    · simp only [Prod.mk.injEq] at h
      exact absurd h.1 (by simp)
    · split at h
      · simp only [Prod.mk.injEq] at h
        exact absurd h.1 (by simp)
      · split at h
        · simp only [Prod.mk.injEq] at h
          exact absurd h.1 (by simp)
        · next tx0 st0 heq =>
            simp only [Prod.mk.injEq, Except.ok.injEq] at h
            obtain ⟨h1, h2⟩ := h
            subst h1
            obtain ⟨_, _, _, _, _, _, _, hitems, _, _⟩ :=
              createTransaction_ok_inv st
                { items := st.cart.cart_items.map (fun ci =>
                    { product := ci.product, quantity := ci.quantity,
                      unit_price := ci.unit_price, discount := 0 }),
                  amount_paid := a, tax := t, discount := d }
                user now dateStr tx0 st0 heq
            refine ⟨?_, ?_, ?_⟩
            · rw [hitems, List.map_map, List.map_map]
              rfl
            · rw [← h2]
            · rw [← h2]

theorem claim_C7_witness :
    checkout
      { products := [{ id := 1, unit_price := 1000, cost_price := 600, current_stock := 5, is_active := true }],
        transactions := [], movements := [],
        cart := { cart_items := [], is_active := true } }
      3000 0 0 7 99 ['2', '0', '2', '5', '0', '1', '0', '1']
    = (Except.error PosError.EMPTY_CART,
       { products := [{ id := 1, unit_price := 1000, cost_price := 600, current_stock := 5, is_active := true }],
         transactions := [], movements := [],
         cart := { cart_items := [], is_active := true } }) := by
  exact (claim_C7_checkout_cart
    { products := [{ id := 1, unit_price := 1000, cost_price := 600, current_stock := 5, is_active := true }],
      transactions := [], movements := [],
      cart := { cart_items := [], is_active := true } }
    3000 0 0 7 99 ['2', '0', '2', '5', '0', '1', '0', '1']).1 rfl rfl


/-! ## Cart stock-check theorems -/

lemma find?_map_setQty (l : List CartItem) (pid : Nat) (q : Int) :
    (l.map (fun ci => if ci.product == pid then { ci with quantity := q } else ci)).find?
        (fun ci => ci.product == pid)
      = (l.find? (fun ci => ci.product == pid)).map (fun ci => { ci with quantity := q }) := by
  induction l with
  | nil => rfl
  | cons ci rest ih =>
    by_cases hcp : (ci.product == pid) = true
    · have h1 : (if (ci.product == pid) = true then { ci with quantity := q } else ci)
          = ({ ci with quantity := q } : CartItem) := if_pos hcp
      have hupd : (({ ci with quantity := q } : CartItem).product == pid) = true := by
        simpa using hcp
      rw [List.map_cons, h1]
      rw [List.find?_cons_of_pos (p := fun c : CartItem => c.product == pid) _ hupd,
          List.find?_cons_of_pos (p := fun c : CartItem => c.product == pid) _ hcp]
      rfl
    · have hf : (ci.product == pid) = false := by simpa using hcp
      have h1 : (if (ci.product == pid) = true then { ci with quantity := q } else ci) = ci :=
        if_neg (by simp [hf])
      rw [List.map_cons, h1]
      rw [List.find?_cons_of_neg (p := fun c : CartItem => c.product == pid) _ (by simp [hf]),
          List.find?_cons_of_neg (p := fun c : CartItem => c.product == pid) _ (by simp [hf])]
      exact ih

lemma addToCart_eval (st : PosState) (pid : Nat) (qty : Int) (p : Product)
    (hcart : st.cart.is_active = true) (hq : 1 ≤ qty)
    (hp : findProduct st.products pid = some p) (hact : p.is_active = true) :
    addToCart st pid qty =
      if p.current_stock < qty then (some PosError.INSUFFICIENT_STOCK, st)
      else
        match st.cart.cart_items.find? (fun ci => ci.product == pid) with
        | none =>
          (none, { st with cart := { st.cart with cart_items :=
            st.cart.cart_items ++ [{ product := pid, quantity := qty, unit_price := p.unit_price }] } })
        | some existing =>
          if p.current_stock < existing.quantity + qty then (some PosError.INSUFFICIENT_STOCK, st)
          else
            (none, { st with cart := { st.cart with cart_items :=
              (st.cart.cart_items.map (fun ci =>
                if ci.product == pid then { ci with quantity := existing.quantity + qty } else ci)) } }) := by
  simp [addToCart, show ¬ qty < 1 by omega, hp, hact, hcart]

lemma updateCartItem_eval (st : PosState) (pid : Nat) (qty : Int)
    (ci : CartItem) (p : Product)
    (hcart : st.cart.is_active = true)
    (heq : st.cart.cart_items.find? (fun c => c.product == pid) = some ci)
    (hq : 1 ≤ qty) (hp : findProduct st.products pid = some p) :
    updateCartItem st pid qty =
      if p.current_stock < qty then (some PosError.INSUFFICIENT_STOCK, st)
      else
        (none, { st with cart := { st.cart with cart_items :=
          (st.cart.cart_items.map (fun c =>
            if c.product == pid then { c with quantity := qty } else c)) } }) := by
  have hcp : ci.product = pid := by simpa using List.find?_some heq
  simp [updateCartItem, hcart, heq, show ¬ qty < 1 by omega, hcp, hp]

/-- C8: cart add and cart update reject with INSUFFICIENT_STOCK exactly
when the resulting quantity would exceed the product's current stock — for
an add on an existing line the resulting quantity is the existing quantity
plus the requested one — and when the check passes the resulting quantity
is persisted exactly as computed. -/
theorem claim_C8_cart_stock_checks (st : PosState) (pid : Nat) (qty : Int) (p : Product)
    (hcart : st.cart.is_active = true)
    (hq : 1 ≤ qty)
    (hp : findProduct st.products pid = some p)
    (hact : p.is_active = true)
    (hinv : ∀ ci ∈ st.cart.cart_items, 0 ≤ ci.quantity) :
    (((addToCart st pid qty).1 = some PosError.INSUFFICIENT_STOCK ↔
        p.current_stock < cartQty st.cart pid + qty)
      ∧ ((addToCart st pid qty).1 = none →
        cartQty (addToCart st pid qty).2.cart pid = cartQty st.cart pid + qty))
    ∧ ((st.cart.cart_items.find? (fun ci => ci.product == pid)).isSome →
        (((updateCartItem st pid qty).1 = some PosError.INSUFFICIENT_STOCK ↔
            p.current_stock < qty)
          ∧ ((updateCartItem st pid qty).1 = none →
            cartQty (updateCartItem st pid qty).2.cart pid = qty))) := by
  constructor
  · rw [addToCart_eval st pid qty p hcart hq hp hact]
    cases heq : st.cart.cart_items.find? (fun ci => ci.product == pid) with
    | none =>
      have hcq : cartQty st.cart pid = 0 := by simp [cartQty, heq]
      rw [hcq]
      by_cases hs : p.current_stock < qty
      · rw [if_pos hs]
        refine ⟨⟨fun _ => by omega, fun _ => rfl⟩, ?_⟩
        intro hn
        simp at hn
      · rw [if_neg hs]
        simp only [heq]
        refine ⟨⟨fun hn => by simp at hn, fun hlt => absurd hlt (by omega)⟩, ?_⟩
        intro _
        simp [cartQty, List.find?_append, heq]
    | some existing =>
      have hcq : cartQty st.cart pid = existing.quantity := by simp [cartQty, heq]
      have hq0 : 0 ≤ existing.quantity :=
        hinv existing (List.mem_of_find?_eq_some heq)
      rw [hcq]
      by_cases hs : p.current_stock < qty
      · rw [if_pos hs]
        refine ⟨⟨fun _ => by omega, fun _ => rfl⟩, ?_⟩
        intro hn
        simp at hn
      · rw [if_neg hs]
        simp only [heq]
        by_cases hs2 : p.current_stock < existing.quantity + qty
        · rw [if_pos hs2]
          refine ⟨⟨fun _ => hs2, fun _ => rfl⟩, ?_⟩
          intro hn
          simp at hn
        · rw [if_neg hs2]
          refine ⟨⟨fun hn => by simp at hn, fun hlt => absurd hlt hs2⟩, ?_⟩
          intro _
          simp only [cartQty, find?_map_setQty, heq, Option.map_some]
          rfl
  · intro hsome
    cases heq : st.cart.cart_items.find? (fun ci => ci.product == pid) with
    | none =>
      rw [heq] at hsome
      simp at hsome
    | some ci =>
      rw [updateCartItem_eval st pid qty ci p hcart heq hq hp]
      by_cases hs : p.current_stock < qty
      · rw [if_pos hs]
        refine ⟨⟨fun _ => hs, fun _ => rfl⟩, ?_⟩
        intro hn
        simp at hn
      · rw [if_neg hs]
        refine ⟨⟨fun hn => by simp at hn, fun hlt => absurd hlt hs⟩, ?_⟩
        intro _
        simp only [cartQty, find?_map_setQty, heq, Option.map_some]
        rfl

theorem claim_C8_witness :
    (((addToCart
        { products := [{ id := 1, unit_price := 1000, cost_price := 600, current_stock := 5, is_active := true }],
          transactions := [], movements := [],
          cart := { cart_items := [{ product := 1, quantity := 3, unit_price := 1000 }], is_active := true } }
        1 3).1 = some PosError.INSUFFICIENT_STOCK ↔
        (5 : Int) < cartQty
          { cart_items := [{ product := 1, quantity := 3, unit_price := 1000 }], is_active := true } 1 + 3)
      ∧ ((addToCart
        { products := [{ id := 1, unit_price := 1000, cost_price := 600, current_stock := 5, is_active := true }],
          transactions := [], movements := [],
          cart := { cart_items := [{ product := 1, quantity := 3, unit_price := 1000 }], is_active := true } }
        1 3).1 = none →
        cartQty (addToCart
          { products := [{ id := 1, unit_price := 1000, cost_price := 600, current_stock := 5, is_active := true }],
            transactions := [], movements := [],
            cart := { cart_items := [{ product := 1, quantity := 3, unit_price := 1000 }], is_active := true } }
          1 3).2.cart 1
          = cartQty
            { cart_items := [{ product := 1, quantity := 3, unit_price := 1000 }], is_active := true } 1 + 3))
    ∧ ((([{ product := 1, quantity := 3, unit_price := 1000 }] : List CartItem).find?
          (fun ci => ci.product == 1)).isSome →
        (((updateCartItem
            { products := [{ id := 1, unit_price := 1000, cost_price := 600, current_stock := 5, is_active := true }],
              transactions := [], movements := [],
              cart := { cart_items := [{ product := 1, quantity := 3, unit_price := 1000 }], is_active := true } }
            1 3).1 = some PosError.INSUFFICIENT_STOCK ↔ (5 : Int) < 3)
          ∧ ((updateCartItem
            { products := [{ id := 1, unit_price := 1000, cost_price := 600, current_stock := 5, is_active := true }],
              transactions := [], movements := [],
              cart := { cart_items := [{ product := 1, quantity := 3, unit_price := 1000 }], is_active := true } }
            1 3).1 = none →
            cartQty (updateCartItem
              { products := [{ id := 1, unit_price := 1000, cost_price := 600, current_stock := 5, is_active := true }],
                transactions := [], movements := [],
                cart := { cart_items := [{ product := 1, quantity := 3, unit_price := 1000 }], is_active := true } }
              1 3).2.cart 1 = 3))) := by
  exact claim_C8_cart_stock_checks
    { products := [{ id := 1, unit_price := 1000, cost_price := 600, current_stock := 5, is_active := true }],
      transactions := [], movements := [],
      cart := { cart_items := [{ product := 1, quantity := 3, unit_price := 1000 }], is_active := true } }
    1 3
    { id := 1, unit_price := 1000, cost_price := 600, current_stock := 5, is_active := true }
    rfl (by decide) rfl rfl (by decide)


/-! ## Transaction-number theorems -/

lemma lexLt_irrefl (s : List Char) : lexLt s s = false := by
  induction s with
  | nil => rfl
  | cons c rest ih => simp [lexLt, ih]

lemma lexLt_asymm (a : List Char) : ∀ (b : List Char), lexLt a b = true → lexLt b a = false := by
  induction a with
  | nil =>
    intro b h
    cases b with
    | nil => rfl
    | cons d bs => rfl
  | cons c as ih =>
    intro b h
    cases b with
    | nil => simp [lexLt] at h
    | cons d bs =>
      simp only [lexLt] at h ⊢
      by_cases h1 : c.toNat < d.toNat
      · have h2 : ¬ d.toNat < c.toNat := by omega
        simp [h1, h2]
      · by_cases h2 : d.toNat < c.toNat
        · simp [h1, h2] at h
        · simp only [h1, h2, if_false] at h ⊢
          exact ih bs h

lemma lexLt_append_left (p a b : List Char) : lexLt (p ++ a) (p ++ b) = lexLt a b := by
  induction p with
  | nil => rfl
  | cons c rest ih => simp [lexLt, lt_self_iff_false, ih]

lemma foldl_max_eq (m : List Char) :
    ∀ (l : List (List Char)) (acc : List Char),
    (acc = m ∨ lexLt acc m = true) →
    (∀ s ∈ l, s = m ∨ lexLt s m = true) →
    (m = acc ∨ m ∈ l) →
    l.foldl (fun acc s => if lexLt acc s then s else acc) acc = m := by
  intro l
  induction l with
  | nil =>
    intro acc hacc hall hmem
    rcases hmem with h | h
    · simpa using h.symm
    · exact absurd h (List.not_mem_nil _)
  | cons s t ih =>
    intro acc hacc hall hmem
    simp only [List.foldl_cons]
    apply ih
    · by_cases hls : lexLt acc s = true
      · rw [if_pos hls]
        exact hall s (by simp)
      · rw [if_neg hls]
        exact hacc
    · intro x hx
      exact hall x (by simp [hx])
    · rcases hmem with h | h
      · left
        by_cases hls : lexLt acc s = true
        · rw [if_pos hls]
          rcases hall s (by simp) with h1 | h1
          · exact h1.symm
          · have h2 := lexLt_asymm acc s hls
            rw [← h] at h2
            rw [h2] at h1
            exact absurd h1 (by simp)
        · rw [if_neg hls]
          exact h
      · rcases List.mem_cons.mp h with h1 | h1
        · subst h1
          left
          by_cases hls : lexLt acc m = true
          · rw [if_pos hls]
          · rw [if_neg hls]
            rcases hacc with h2 | h2
            · exact h2.symm
            · exact absurd h2 hls
        · right
          exact h1

lemma maxStr_eq (l : List (List Char)) (m : List Char) (hm : m ∈ l)
    (hall : ∀ s ∈ l, s = m ∨ lexLt s m = true) : maxStr l = some m := by
  cases l with
  | nil => exact absurd hm (List.not_mem_nil _)
  | cons x xs =>
    simp only [maxStr, Option.some.injEq]
    apply foldl_max_eq
    · exact hall x (by simp)
    · intro s hs
      exact hall s (by simp [hs])
    · rcases List.mem_cons.mp hm with h | h
      · left
        exact h
      · right
        exact h

lemma digChar_toNat : ∀ d : Nat, d < 10 → (digChar d).toNat = 48 + d := by decide

lemma pad4chars_lt (i j : Nat) (hij : i < j) (hj : j < 10000) :
    lexLt (pad4chars i) (pad4chars j) = true := by
  have hi : i < 10000 := by omega
  simp only [pad4chars, if_pos hi, if_pos hj, lexLt]
  rw [digChar_toNat (i / 1000) (by omega), digChar_toNat (i / 100 % 10) (by omega),
      digChar_toNat (i / 10 % 10) (by omega), digChar_toNat (i % 10) (by omega),
      digChar_toNat (j / 1000) (by omega), digChar_toNat (j / 100 % 10) (by omega),
      digChar_toNat (j / 10 % 10) (by omega), digChar_toNat (j % 10) (by omega)]
  split_ifs <;> first | rfl | (exfalso; omega)

lemma parseNatChars_pad4 (n : Nat) (h : n < 10000) : parseNatChars (pad4chars n) = n := by
  simp only [pad4chars, if_pos h, parseNatChars, List.foldl_cons, List.foldl_nil]
  rw [digChar_toNat (n / 1000) (by omega), digChar_toNat (n / 100 % 10) (by omega),
      digChar_toNat (n / 10 % 10) (by omega), digChar_toNat (n % 10) (by omega)]
  omega

lemma dash_ne_digChar : ∀ x : Nat, x < 10 → ¬ ('-' = digChar x) := by decide

lemma dash_not_mem_pad4 (n : Nat) (h : n < 10000) : '-' ∉ pad4chars n := by
  simp only [pad4chars, if_pos h]
  intro hmem
  simp only [List.mem_cons, List.not_mem_nil, or_false] at hmem
  rcases hmem with h1 | h1 | h1 | h1
  · exact dash_ne_digChar _ (by omega) h1
  · exact dash_ne_digChar _ (by omega) h1
  · exact dash_ne_digChar _ (by omega) h1
  · exact dash_ne_digChar _ (by omega) h1

lemma lastAfterDashAux_no_dash (ys : List Char) : ∀ (acc : List Char), '-' ∉ ys →
    lastAfterDashAux acc ys = acc.reverse ++ ys := by
  induction ys with
  | nil =>
    intro acc _
    simp [lastAfterDashAux]
  | cons c rest ih =>
    intro acc h
    have hc : ¬ c = '-' := by
      intro hcc
      exact h (by simp [hcc])
    have hrest : '-' ∉ rest := by
      intro hr
      exact h (by simp [hr])
    simp only [lastAfterDashAux, if_neg hc]
    rw [ih (c :: acc) hrest]
    simp

lemma lastAfterDashAux_dash_split (xs ys : List Char) : ∀ (acc : List Char),
    lastAfterDashAux acc (xs ++ '-' :: ys) = lastAfterDashAux [] ys := by
  induction xs with
  | nil =>
    intro acc
    simp [lastAfterDashAux]
  | cons c rest ih =>
    intro acc
    by_cases hc : c = '-'
    · simp only [List.cons_append, lastAfterDashAux, if_pos hc]
      exact ih []
    · simp only [List.cons_append, lastAfterDashAux, if_neg hc]
      exact ih (c :: acc)

lemma lastAfterDash_mkTxnNumber (d : List Char) (n : Nat) (h : n < 10000) :
    lastAfterDash (mkTxnNumber d n) = pad4chars n := by
  unfold lastAfterDash mkTxnNumber
  rw [lastAfterDashAux_dash_split (txnPre d) (pad4chars n) [],
      lastAfterDashAux_no_dash (pad4chars n) [] (dash_not_mem_pad4 n h)]
  simp

lemma isPrefixOf_append_self (l r : List Char) : l.isPrefixOf (l ++ r) = true := by
  induction l with
  | nil => simp [List.isPrefixOf]
  | cons c rest ih => simp [List.isPrefixOf, ih]

lemma lexLt_mkTxnNumber (d : List Char) (i j : Nat) :
    lexLt (mkTxnNumber d i) (mkTxnNumber d j) = lexLt (pad4chars i) (pad4chars j) := by
  unfold mkTxnNumber
  rw [show txnPre d ++ '-' :: pad4chars i = (txnPre d ++ ['-']) ++ pad4chars i by simp,
      show txnPre d ++ '-' :: pad4chars j = (txnPre d ++ ['-']) ++ pad4chars j by simp]
  exact lexLt_append_left _ _ _

lemma maxStr_mapMk (d : List Char) (n : Nat) (h1 : 1 ≤ n) (h2 : n ≤ 9999) :
    maxStr ((List.range n).map (fun k => mkTxnNumber d (k + 1))) = some (mkTxnNumber d n) := by
  apply maxStr_eq
  · simp only [List.mem_map, List.mem_range]
    exact ⟨n - 1, by omega, by congr 1; omega⟩
  · intro s hs
    simp only [List.mem_map, List.mem_range] at hs
    obtain ⟨k, hk, rfl⟩ := hs
    by_cases hkn : k + 1 = n
    · left
      rw [hkn]
    · right
      rw [lexLt_mkTxnNumber]
      exact pad4chars_lt (k + 1) n (by omega) (by omega)

lemma filter_prefix_mapMk (d : List Char) (l : List Nat) :
    (l.map (fun k => mkTxnNumber d (k + 1))).filter (fun s => (txnPre d).isPrefixOf s)
      = l.map (fun k => mkTxnNumber d (k + 1)) := by
  apply List.filter_eq_self.mpr
  intro s hs
  simp only [List.mem_map] at hs
  obtain ⟨k, _, rfl⟩ := hs
  unfold mkTxnNumber
  exact isPrefixOf_append_self _ _

lemma numbersAfter_succ (d : List Char) (n : Nat) :
    numbersAfter d (n + 1)
      = numbersAfter d n ++ [genTransactionNumber (numbersAfter d n) d] := rfl

lemma numbersAfter_closed (d : List Char) : ∀ n : Nat, n ≤ 9999 →
    numbersAfter d n = (List.range n).map (fun k => mkTxnNumber d (k + 1)) := by
  intro n
  induction n with
  | zero =>
    intro _
    rfl
  | succ m ih =>
    intro hm
    have hm' : m ≤ 9999 := by omega
    rw [numbersAfter_succ, ih hm']
    cases Nat.eq_zero_or_pos m with
    | inl h0 =>
      subst h0
      simp [genTransactionNumber, maxStr, List.range_succ]
    | inr hpos =>
      have hgen : genTransactionNumber ((List.range m).map (fun k => mkTxnNumber d (k + 1))) d
          = mkTxnNumber d (m + 1) := by
        simp only [genTransactionNumber, filter_prefix_mapMk, maxStr_mapMk d m hpos hm']
        rw [lastAfterDash_mkTxnNumber d m (by omega), parseNatChars_pad4 m (by omega)]
      rw [hgen, List.range_succ]
      simp

/-- C2 (amended): for any day on which at most 9999 transactions are
created, the sequentially generated numbers are exactly
`TXN-<date>-0001`, `TXN-<date>-0002`, ..., each obtained from the maximum
existing number for the day's prefix by incrementing its sequence and
zero-padding to four digits; they are pairwise distinct and strictly
increasing in string order, and the first is `TXN-<date>-0001`. -/
theorem claim_C2_numbering_amended (d : List Char) (n : Nat) (h : n ≤ 9999) :
    numbersAfter d n = (List.range n).map (fun k => mkTxnNumber d (k + 1))
    ∧ (numbersAfter d n).Nodup
    ∧ (numbersAfter d n).Pairwise (fun a b => lexLt a b = true)
    ∧ (1 ≤ n → (numbersAfter d n).head? = some (mkTxnNumber d 1)) := by
  have hc := numbersAfter_closed d n h
  have hpair : (numbersAfter d n).Pairwise (fun a b => lexLt a b = true) := by
    rw [hc, List.pairwise_map]
    apply List.Pairwise.imp_of_mem ?_ (List.pairwise_lt_range n)
    intro a b ha hb hab
    rw [lexLt_mkTxnNumber]
    exact pad4chars_lt (a + 1) (b + 1) (by omega)
      (by simp only [List.mem_range] at hb; omega)
  refine ⟨hc, ?_, hpair, ?_⟩
  · apply List.Pairwise.imp ?_ hpair
    intro a b hab
    intro he
    subst he
    rw [lexLt_irrefl] at hab
    exact absurd hab (by simp)
  · intro h1
    obtain ⟨m, rfl⟩ : ∃ m, n = m + 1 := ⟨n - 1, by omega⟩
    rw [hc, List.range_succ_eq_map]
    simp

lemma numbersAfter_10000 (d : List Char) :
    numbersAfter d 10000
      = (List.range 9999).map (fun k => mkTxnNumber d (k + 1)) ++ [mkTxnNumber d 10000] := by
  rw [show (10000 : Nat) = 9999 + 1 by rfl, numbersAfter_succ,
      numbersAfter_closed d 9999 (by omega)]
  have hgen : genTransactionNumber ((List.range 9999).map (fun k => mkTxnNumber d (k + 1))) d
      = mkTxnNumber d 10000 := by
    simp only [genTransactionNumber, filter_prefix_mapMk,
      maxStr_mapMk d 9999 (by omega) (by omega)]
    rw [lastAfterDash_mkTxnNumber d 9999 (by omega), parseNatChars_pad4 9999 (by omega)]
  rw [hgen]

lemma numbersAfter_10001 (d : List Char) :
    numbersAfter d 10001
      = ((List.range 9999).map (fun k => mkTxnNumber d (k + 1)) ++ [mkTxnNumber d 10000])
        ++ [mkTxnNumber d 10000] := by
  rw [show (10001 : Nat) = 10000 + 1 by rfl, numbersAfter_succ, numbersAfter_10000]
  have hfil : (((List.range 9999).map (fun k => mkTxnNumber d (k + 1)))
        ++ [mkTxnNumber d 10000]).filter (fun s => (txnPre d).isPrefixOf s)
      = ((List.range 9999).map (fun k => mkTxnNumber d (k + 1))) ++ [mkTxnNumber d 10000] := by
    apply List.filter_eq_self.mpr
    intro s hs
    rcases List.mem_append.mp hs with h1 | h1
    · simp only [List.mem_map] at h1
      obtain ⟨k, _, rfl⟩ := h1
      unfold mkTxnNumber
      exact isPrefixOf_append_self _ _
    · rw [List.mem_singleton.mp h1]
      unfold mkTxnNumber
      exact isPrefixOf_append_self _ _
  have hmax : maxStr (((List.range 9999).map (fun k => mkTxnNumber d (k + 1)))
        ++ [mkTxnNumber d 10000]) = some (mkTxnNumber d 9999) := by
    apply maxStr_eq
    · apply List.mem_append.mpr
      left
      simp only [List.mem_map, List.mem_range]
      exact ⟨9998, by omega, by norm_num⟩
    · intro s hs
      rcases List.mem_append.mp hs with h1 | h1
      · simp only [List.mem_map, List.mem_range] at h1
        obtain ⟨k, hk, rfl⟩ := h1
        by_cases hkn : k + 1 = 9999
        · left
          rw [hkn]
        · right
          rw [lexLt_mkTxnNumber]
          exact pad4chars_lt (k + 1) 9999 (by omega) (by omega)
      · right
        rw [List.mem_singleton.mp h1, lexLt_mkTxnNumber]
        decide
  have hgen : genTransactionNumber (((List.range 9999).map (fun k => mkTxnNumber d (k + 1)))
        ++ [mkTxnNumber d 10000]) d = mkTxnNumber d 10000 := by
    simp only [genTransactionNumber, hfil, hmax]
    rw [lastAfterDash_mkTxnNumber d 9999 (by omega), parseNatChars_pad4 9999 (by omega)]
  rw [hgen]

/-- C2 counterexample: on the 10001st sequential creation of a day the
generator repeats `TXN-<date>-10000` (the string-maximum of the existing
numbers is still `TXN-<date>-9999`), so the generated numbers of that day
are not unique, refuting the claim as stated. -/
theorem claim_C2_counterexample :
    ¬ (numbersAfter ['2', '0', '2', '5', '0', '1', '0', '1'] 10001).Nodup := by
  rw [numbersAfter_10001]
  intro hnd
  rcases List.nodup_append.mp hnd with ⟨_, _, hdisj⟩
  exact hdisj (a := mkTxnNumber ['2', '0', '2', '5', '0', '1', '0', '1'] 10000)
    (by simp) (by simp)

theorem claim_C2_witness :
    (3 : Nat) ≤ 9999
    ∧ (numbersAfter ['2', '0', '2', '5', '0', '1', '0', '1'] 3
        = (List.range 3).map (fun k => mkTxnNumber ['2', '0', '2', '5', '0', '1', '0', '1'] (k + 1))
      ∧ (numbersAfter ['2', '0', '2', '5', '0', '1', '0', '1'] 3).Nodup
      ∧ (numbersAfter ['2', '0', '2', '5', '0', '1', '0', '1'] 3).Pairwise
          (fun a b => lexLt a b = true)
      ∧ (1 ≤ 3 → (numbersAfter ['2', '0', '2', '5', '0', '1', '0', '1'] 3).head?
          = some (mkTxnNumber ['2', '0', '2', '5', '0', '1', '0', '1'] 1))) :=
  ⟨by decide, claim_C2_numbering_amended ['2', '0', '2', '5', '0', '1', '0', '1'] 3 (by decide)⟩

end Flowerbelle
